import Mathlib

/-!
Verification of the pronunciation-assessment middleware (src/app.py).

Scores travel as JSON numbers; we model them as rationals.  Python's
round(x, 1) rounds to the nearest tenth with ties to even, modelled by
roundTenths / round1 below, computed directly on numerator and
denominator.  Untrusted fields of the remote JSON document are modelled
as Option values; dict.get with a default becomes Option.getD.
Concrete decimal scores are written with mkRat, e.g. mkRat 899 10 is 89.9.
-/

/-- Numerator of a rational scaled to tenths and rounded to the nearest
integer, ties to even (Python's round(x, 1) semantics at exact values):
roundTenths q is the integer k nearest to 10 * q. -/
def roundTenths (q : ℚ) : ℤ :=
  let d : ℤ := (q.den : ℤ)
  let n : ℤ := Int.fdiv (q.num * 10) d
  let r : ℤ := q.num * 10 - n * d
  if 2 * r < d then n
  else if d < 2 * r then n + 1
  else if n % 2 = 0 then n else n + 1

/-- Python round(x, 1): round to one decimal place. -/
def round1 (q : ℚ) : ℚ := mkRat (roundTenths q) 10

/-- Decimal rendering of a one-decimal score, as a Python f-string renders
the float produced by round(x, 1): e.g. 92 prints as 92.0 and 89.9 as 89.9. -/
def showScore1 (q : ℚ) : String :=
  let k : ℤ := Int.fdiv (q.num * 10) (q.den : ℤ)
  let sign := if k < 0 then "-" else ""
  sign ++ toString (k.natAbs / 10) ++ "." ++ toString (k.natAbs % 10)

/-- One element of the raw result's Words array (src/app.py line 124):
fields Word, AccuracyScore, ErrorType, each possibly absent. -/
structure WordEntry where
  word : Option String
  accuracyScore : Option ℚ
  errorType : Option String
deriving DecidableEq, Repr

/-- The best-candidate object NBest[0] of the raw Azure result
(src/app.py lines 104-110): every field access must tolerate absence. -/
structure NBestEntry where
  pronScore : Option ℚ
  accuracyScore : Option ℚ
  fluencyScore : Option ℚ
  completenessScore : Option ℚ
  prosodyScore : Option ℚ
  display : Option String
  words : Option (List WordEntry)
deriving DecidableEq, Repr

/-- The data field of a successful assess_pronunciation result: a JSON
document that may carry an NBest array. -/
structure AzureData where
  nbest : Option (List NBestEntry)
deriving DecidableEq, Repr

/-- The dictionary returned by assess_pronunciation (src/app.py lines 85-92),
as consumed by format_response. -/
structure AzureResult where
  success : Bool
  error : Option String
  details : Option String
  data : Option AzureData
deriving DecidableEq, Repr

/-- One element of the words list of the formatted output
(src/app.py line 127). -/
structure WordFB where
  word : Option String
  score : ℚ
  error : String
deriving DecidableEq, Repr

/-- The caller-facing formatted result (src/app.py lines 96-101 and 134-144). -/
inductive FormattedResult where
| errF (error : String) (details : String) (feedback : String)
| okF (pronunciation_score accuracy_score fluency_score completeness_score : ℚ)
      (prosody_score : Option ℚ) (feedback : String)
      (words : List WordFB) (recognized_text : String)
deriving DecidableEq, Repr

/-- The empty dict used when NBest is absent or empty. -/
def emptyNBest : NBestEntry := ⟨none, none, none, none, none, none, none⟩

/-- src/app.py line 104: NBest[0] if the NBest list is present and
non-empty (truthy), otherwise the empty dict. -/
def getNBest (data : AzureData) : NBestEntry :=
  match data.nbest with
  | some (nb :: _) => nb
  | _ => emptyNBest

/-- Best candidate of a result: the data field defaulting to an empty
document, then NBest selection (src/app.py lines 103-104). -/
def extractNBest (r : AzureResult) : NBestEntry := getNBest (r.data.getD ⟨none⟩)

/-- src/app.py lines 112-119: the four-tier feedback ladder on the rounded
pronunciation score. -/
def baseFeedback (ps : ℚ) : String :=
  if ps ≥ 90 then "🌟 Excellent! Your pronunciation scored " ++ showScore1 ps ++ "/100."
  else if ps ≥ 75 then "👍 Good job! Your pronunciation scored " ++ showScore1 ps ++ "/100."
  else if ps ≥ 60 then "📚 Not bad! Your pronunciation scored " ++ showScore1 ps ++ "/100."
  else "💪 Keep trying! Your pronunciation scored " ++ showScore1 ps ++ "/100."

/-- src/app.py line 125: word_score. -/
def wordScore (w : WordEntry) : ℚ := round1 (w.accuracyScore.getD 0)

/-- src/app.py line 126: error_type with default None-string. -/
def wordError (w : WordEntry) : String := w.errorType.getD "None"

/-- src/app.py line 128: the problem-word test. -/
def isProblem (w : WordEntry) : Bool :=
  decide (wordScore w < 70 ∨ wordError w ≠ "None")

/-- src/app.py line 127: words_feedback accumulated over the loop. -/
def wordsFeedback (ws : List WordEntry) : List WordFB :=
  ws.map (fun w => ⟨w.word, wordScore w, wordError w⟩)

/-- src/app.py lines 128-129: problem_words accumulated over the loop,
in original order; each entry is the Word field and may be absent. -/
def problemWords (ws : List WordEntry) : List (Option String) :=
  (ws.filter isProblem).map (fun w => w.word)

/-- Sequence a list of optional strings: none if any element is absent,
modelling that joining a list containing Python None raises. -/
def seqOptions : List (Option String) → Option (List String)
  | [] => some []
  | none :: _ => none
  | some s :: rest => (seqOptions rest).map (fun l => s :: l)

/-- src/app.py lines 131-132: append the words-to-practice clause when
problem_words is non-empty; none models the join raising on an absent name. -/
def joinSuffix (base : String) (pws : List (Option String)) : Option String :=
  if pws.isEmpty then some base
  else (seqOptions pws).map
    (fun names => base ++ " Words to practice: " ++ String.intercalate ", " names)

/-- The complete feedback string of a successful result
(src/app.py lines 112-132). -/
def feedbackFull (nb : NBestEntry) : Option String :=
  joinSuffix (baseFeedback (round1 (nb.pronScore.getD 0))) (problemWords (nb.words.getD []))

/-- The success branch of format_response (src/app.py lines 103-144);
none models an exception escaping the function. -/
def successBody (nb : NBestEntry) : Option FormattedResult :=
  match feedbackFull nb with
  | none => none
  | some fb =>
    some (FormattedResult.okF
      (round1 (nb.pronScore.getD 0))
      (round1 (nb.accuracyScore.getD 0))
      (round1 (nb.fluencyScore.getD 0))
      (round1 (nb.completenessScore.getD 0))
      (nb.prosodyScore.map round1)
      fb
      (wordsFeedback (nb.words.getD []))
      (nb.display.getD ""))

/-- src/app.py lines 94-144: the response normalizer. -/
def format_response (r : AzureResult) : Option FormattedResult :=
  if r.success = false then
    some (FormattedResult.errF (r.error.getD "Unknown error") (r.details.getD "")
      "Sorry, I couldn't assess your pronunciation. Please try again.")
  else successBody (extractNBest r)

/-- A successful raw result carrying just a PronScore. -/
def simpleScore (q : ℚ) : AzureResult :=
  ⟨true, none, none, some ⟨some [⟨some q, none, none, none, none, none, none⟩]⟩⟩

/-- src/app.py lines 17-18: the API key environment variable with empty
default; the argument models the process environment entry. -/
def get_azure_key (env : Option String) : String := env.getD ""

/-- src/app.py lines 20-21: the region environment variable with a fixed
default region. -/
def get_azure_region (env : Option String) : String := env.getD "canadaeast"

/-- The JSON object returned by the health endpoint
(src/app.py lines 146-155). -/
structure HomeResponse where
  status : String
  service : String
  azure_configured : Bool
  key_length : ℕ
  region : String
deriving DecidableEq, Repr

/-- src/app.py lines 146-155: the GET / health handler. -/
def home (keyEnv regionEnv : Option String) : HomeResponse :=
  let azure_key := get_azure_key keyEnv
  { status := "running"
    service := "Pronunciation Assessment Middleware"
    azure_configured := decide (0 < azure_key.length)
    key_length := azure_key.length
    region := get_azure_region regionEnv }

/-- Outcome of the ffmpeg subprocess call (src/app.py lines 39-45): exit 0
with the WAV produced; a CalledProcessError, recording whether a (partial)
output file was created before the failure; or any other exception raised
while launching it, e.g. the binary being absent. -/
inductive FfmpegOutcome where
| ok
| fail (wavCreated : Bool)
| exn
deriving DecidableEq, Repr

/-- Which of the two temporary files created by download_audio still exist
on disk when the function returns. -/
structure TempFiles where
  mp3 : Bool
  wav : Bool
deriving DecidableEq, Repr

/-- The outcomes of the effectful steps inside one call to download_audio:
the HTTP GET combined with raise_for_status (none models any HTTPError,
network or timeout exception), the temp-file write, the ffmpeg run, and
reading the transcoded WAV back (none models an I/O exception). -/
structure FetchWorld where
  get : Option (List ℕ)
  tmpWriteOk : Bool
  ffmpegRun : FfmpegOutcome
  readWav : Option (List ℕ)
deriving DecidableEq, Repr

/-- src/app.py lines 23-59: download_audio.  First component: the returned
value (none models the bare except returning None).  Second component:
which temporary files remain on disk at return.  The branches mirror the
source: the outer try covers everything, the inner try catches only
CalledProcessError (unlinking the mp3 and returning the original bytes);
any other exception reaches the outer bare except, which unlinks nothing. -/
def download_audio (w : FetchWorld) : Option (List ℕ) × TempFiles :=
  match w.get with
  | none => (none, ⟨false, false⟩)
  | some audio_data =>
    if w.tmpWriteOk = false then (none, ⟨true, false⟩)
    else
      match w.ffmpegRun with
      | .exn => (none, ⟨true, false⟩)
      | .fail wavCreated => (some audio_data, ⟨false, wavCreated⟩)
      | .ok =>
        match w.readWav with
        | none => (none, ⟨true, true⟩)
        | some wav_data => (some wav_data, ⟨false, false⟩)

/-- The parsed JSON body of a POST /assess request (src/app.py lines
164-170): every field may be absent. -/
structure ReqBody where
  audio_url : Option String
  reference_text : Option String
  text : Option String
  language : Option String
deriving DecidableEq, Repr

/-- The effect environment of the assess handler: the process environment
and the observable behaviour of its two collaborators, download_audio and
assess_pronunciation (the remote Assessment Client). -/
structure Env where
  azureKeyEnv : Option String
  regionEnv : Option String
  download : String → Option (List ℕ)
  assessRemote : List ℕ → String → String → AzureResult

/-- src/app.py line 168: audio_url, with absence collapsing to the empty
string for the falsiness test. -/
def audioUrl (data : ReqBody) : String := data.audio_url.getD ""

/-- src/app.py line 169: reference_text falling back to the text field,
then to the empty string. -/
def refText (data : ReqBody) : String :=
  match data.reference_text with
  | some t => t
  | none => data.text.getD ""

/-- src/app.py line 170: language with default en-US. -/
def reqLanguage (data : ReqBody) : String := data.language.getD "en-US"

/-- An HTTP response of the assess handler: an error payload with its
status code, a 200 payload, or an unhandled exception escaping into the
framework. -/
inductive AssessResponse where
| jsonErr (status : ℕ) (error : String)
| jsonOk (f : FormattedResult)
| serverCrash
deriving DecidableEq, Repr

/-- src/app.py lines 157-182: the POST /assess handler.  The body argument
is none when request.get_json() is falsy.  The boolean records whether
assess_pronunciation (the remote assessment call) was invoked. -/
def assessHandler (env : Env) (body : Option ReqBody) : AssessResponse × Bool :=
  if get_azure_key env.azureKeyEnv = "" then
    (.jsonErr 500 "Azure key not configured", false)
  else
    match body with
    | none => (.jsonErr 400 "No JSON data", false)
    | some data =>
      if audioUrl data = "" then (.jsonErr 400 "audio_url required", false)
      else if refText data = "" then (.jsonErr 400 "reference_text required", false)
      else
        match env.download (audioUrl data) with
        | none => (.jsonErr 400 "Failed to download audio", false)
        | some audio_data =>
          match format_response (env.assessRemote audio_data (refText data) (reqLanguage data)) with
          | some f => (.jsonOk f, true)
          | none => (.serverCrash, true)

lemma string_append_empty (s : String) : s ++ "" = s := by
  cases s with
  | mk l => show String.mk (l ++ []) = String.mk l
            rw [List.append_nil]

lemma format_response_success (r : AzureResult) (h : r.success = true) :
    format_response r = successBody (extractNBest r) := by
  simp [format_response, h]

lemma successBody_some (nb : NBestEntry) (f : FormattedResult)
    (h : successBody nb = some f) :
    ∃ fb, feedbackFull nb = some fb ∧
      f = FormattedResult.okF (round1 (nb.pronScore.getD 0)) (round1 (nb.accuracyScore.getD 0))
        (round1 (nb.fluencyScore.getD 0)) (round1 (nb.completenessScore.getD 0))
        (nb.prosodyScore.map round1) fb (wordsFeedback (nb.words.getD []))
        (nb.display.getD "") := by
  unfold successBody at h
  cases hfb : feedbackFull nb with
  | none => rw [hfb] at h; cases h
  | some fb => rw [hfb] at h; exact ⟨fb, rfl, (Option.some.inj h).symm⟩

lemma joinSuffix_nil (base : String) : joinSuffix base [] = some base := rfl

lemma joinSuffix_cons (base : String) (p : Option String) (rest : List (Option String)) :
    joinSuffix base (p :: rest) = (seqOptions (p :: rest)).map
      (fun names => base ++ " Words to practice: " ++ String.intercalate ", " names) := rfl

/-- C1.  The normalizer selects the feedback message by a four-tier
threshold ladder on the rounded pronunciation score (>= 90 excellent,
>= 75 good, >= 60 fair, otherwise needs improvement), each template
embedding the numeric score; the boundaries 90 / 89.9 / 75 / 74.9 / 60 /
59.9 resolve to excellent / good / good / fair / fair / needs improvement. -/
theorem c1_feedback_tier_ladder :
    (∀ (r : AzureResult) (ps a fl c : ℚ) (pr : Option ℚ) (fb : String)
        (wfb : List WordFB) (rt : String),
      r.success = true →
      format_response r = some (FormattedResult.okF ps a fl c pr fb wfb rt) →
      ∃ tail, fb =
        (if ps ≥ 90 then "🌟 Excellent! Your pronunciation scored " ++ showScore1 ps ++ "/100."
         else if ps ≥ 75 then "👍 Good job! Your pronunciation scored " ++ showScore1 ps ++ "/100."
         else if ps ≥ 60 then "📚 Not bad! Your pronunciation scored " ++ showScore1 ps ++ "/100."
         else "💪 Keep trying! Your pronunciation scored " ++ showScore1 ps ++ "/100.") ++ tail) ∧
    format_response (simpleScore 90) =
      some (.okF 90 0 0 0 none "🌟 Excellent! Your pronunciation scored 90.0/100." [] "") ∧
    format_response (simpleScore (mkRat 899 10)) =
      some (.okF (mkRat 899 10) 0 0 0 none
        "👍 Good job! Your pronunciation scored 89.9/100." [] "") ∧
    format_response (simpleScore 75) =
      some (.okF 75 0 0 0 none "👍 Good job! Your pronunciation scored 75.0/100." [] "") ∧
    format_response (simpleScore (mkRat 749 10)) =
      some (.okF (mkRat 749 10) 0 0 0 none
        "📚 Not bad! Your pronunciation scored 74.9/100." [] "") ∧
    format_response (simpleScore 60) =
      some (.okF 60 0 0 0 none "📚 Not bad! Your pronunciation scored 60.0/100." [] "") ∧
    format_response (simpleScore (mkRat 599 10)) =
      some (.okF (mkRat 599 10) 0 0 0 none
        "💪 Keep trying! Your pronunciation scored 59.9/100." [] "") := by
  refine ⟨?_, by decide, by decide, by decide, by decide, by decide, by decide⟩
  intro r ps a fl c pr fb wfb rt hs hf
  rw [format_response_success r hs] at hf
  obtain ⟨fb0, hfb, hEq⟩ := successBody_some _ _ hf
  injection hEq with h1 h2 h3 h4 h5 h6 h7 h8
  subst h1
  unfold feedbackFull at hfb
  cases hpw : problemWords ((extractNBest r).words.getD []) with
  | nil =>
    rw [hpw, joinSuffix_nil] at hfb
    refine ⟨"", ?_⟩
    rw [h6]
    show fb0 = baseFeedback (round1 ((extractNBest r).pronScore.getD 0)) ++ ""
    rw [string_append_empty]
    exact (Option.some.inj hfb).symm
  | cons p rest =>
    rw [hpw, joinSuffix_cons] at hfb
    cases hsq : seqOptions (p :: rest) with
    | none => rw [hsq] at hfb; cases hfb
    | some names =>
      rw [hsq] at hfb
      refine ⟨" Words to practice: " ++ String.intercalate ", " names, ?_⟩
      rw [h6]
      show fb0 = baseFeedback (round1 ((extractNBest r).pronScore.getD 0)) ++
        (" Words to practice: " ++ String.intercalate ", " names)
      rw [← String.append_assoc]
      exact (Option.some.inj hfb).symm

/-- Three words exercising the problem-word boundaries: accuracy 69.9 with
error None, accuracy 95 with a Mispronunciation error, accuracy 70 with
error None. -/
def c2Words : List WordEntry :=
  [⟨some "sun", some (mkRat 699 10), some "None"⟩,
   ⟨some "moon", some 95, some "Mispronunciation"⟩,
   ⟨some "star", some 70, some "None"⟩]

/-- A successful raw result with overall score 80 and the three boundary
words above. -/
def c2Example : AzureResult :=
  ⟨true, none, none, some ⟨some [⟨some 80, none, none, none, none, none, some c2Words⟩]⟩⟩

/-- C2.  A word is flagged as a problem word iff its rounded accuracy score
is below 70 or its error type is not the None string (69.9/None flagged,
95/Mispronunciation flagged, 70/None not flagged); whenever at least one
problem word exists, exactly one additional clause is appended to the
feedback listing the problem words in original order, comma-separated. -/
theorem c2_problem_words :
    (∀ (r : AzureResult) (ps a fl c : ℚ) (pr : Option ℚ) (fb : String)
        (wfb : List WordFB) (rt : String),
      r.success = true →
      format_response r = some (FormattedResult.okF ps a fl c pr fb wfb rt) →
      (problemWords ((extractNBest r).words.getD []) = [] → fb = baseFeedback ps) ∧
      (problemWords ((extractNBest r).words.getD []) ≠ [] →
        ∃ names, seqOptions (problemWords ((extractNBest r).words.getD [])) = some names ∧
          fb = baseFeedback ps ++ " Words to practice: " ++ String.intercalate ", " names)) ∧
    (∀ w : WordEntry, isProblem w = true ↔
      (round1 (w.accuracyScore.getD 0) < 70 ∨ w.errorType.getD "None" ≠ "None")) ∧
    isProblem ⟨some "sun", some (mkRat 699 10), some "None"⟩ = true ∧
    isProblem ⟨some "moon", some 95, some "Mispronunciation"⟩ = true ∧
    isProblem ⟨some "star", some 70, some "None"⟩ = false ∧
    format_response c2Example = some (.okF 80 0 0 0 none
      "👍 Good job! Your pronunciation scored 80.0/100. Words to practice: sun, moon"
      [⟨some "sun", mkRat 699 10, "None"⟩, ⟨some "moon", (95 : ℚ), "Mispronunciation"⟩,
       ⟨some "star", (70 : ℚ), "None"⟩] "") := by
  refine ⟨?_, ?_, by decide, by decide, by decide, by decide⟩
  · intro r ps a fl c pr fb wfb rt hs hf
    rw [format_response_success r hs] at hf
    obtain ⟨fb0, hfb, hEq⟩ := successBody_some _ _ hf
    injection hEq with h1 h2 h3 h4 h5 h6 h7 h8
    subst h1
    unfold feedbackFull at hfb
    constructor
    · intro hnil
      rw [hnil, joinSuffix_nil] at hfb
      rw [h6]
      exact (Option.some.inj hfb).symm
    · intro hne
      cases hpw : problemWords ((extractNBest r).words.getD []) with
      | nil => exact absurd hpw hne
      | cons p rest =>
        rw [hpw, joinSuffix_cons] at hfb
        cases hsq : seqOptions (p :: rest) with
        | none => rw [hsq] at hfb; cases hfb
        | some names =>
          rw [hsq] at hfb
          refine ⟨names, rfl, ?_⟩
          rw [h6]
          exact (Option.some.inj hfb).symm
  · intro w
    simp [isProblem, wordScore, wordError]

/-- Witness for C2: at the concrete three-word result, the feedback carries
exactly one appended clause listing the two problem words in order. -/
theorem c2_problem_words_witness :
    ∃ names, seqOptions (problemWords ((extractNBest c2Example).words.getD [])) = some names ∧
      "👍 Good job! Your pronunciation scored 80.0/100. Words to practice: sun, moon" =
        baseFeedback 80 ++ " Words to practice: " ++ String.intercalate ", " names :=
  (c2_problem_words.1 c2Example 80 0 0 0 none
    "👍 Good job! Your pronunciation scored 80.0/100. Words to practice: sun, moon"
    [⟨some "sun", mkRat 699 10, "None"⟩, ⟨some "moon", (95 : ℚ), "Mispronunciation"⟩,
     ⟨some "star", (70 : ℚ), "None"⟩] "" (by decide) (by decide)).2 (by decide)

/-- A successful raw result whose best candidate has ProsodyScore 0. -/
def prosodyZero : AzureResult :=
  ⟨true, none, none, some ⟨some [⟨none, none, none, none, some 0, none, none⟩]⟩⟩

/-- C6.  When the best candidate lacks the ProsodyScore field the output's
prosody score is none, not 0; a present ProsodyScore q yields the rounded
some-value, in particular a present 0 yields some 0. -/
theorem c6_prosody_null_vs_zero :
    ∀ (r : AzureResult) (ps a fl c : ℚ) (pr : Option ℚ) (fb : String)
       (wfb : List WordFB) (rt : String),
      r.success = true →
      format_response r = some (FormattedResult.okF ps a fl c pr fb wfb rt) →
      ((extractNBest r).prosodyScore = none → pr = none) ∧
      (∀ q : ℚ, (extractNBest r).prosodyScore = some q → pr = some (round1 q)) ∧
      ((extractNBest r).prosodyScore = some 0 → pr = some 0) := by
  intro r ps a fl c pr fb wfb rt hs hf
  rw [format_response_success r hs] at hf
  obtain ⟨fb0, hfb, hEq⟩ := successBody_some _ _ hf
  injection hEq with h1 h2 h3 h4 h5 h6 h7 h8
  refine ⟨?_, ?_, ?_⟩
  · intro h; rw [h5, h]; rfl
  · intro q h; rw [h5, h]; rfl
  · intro h; rw [h5, h]; decide

/-- Witness for C6: a candidate without ProsodyScore yields none, one with
ProsodyScore 0 yields some 0. -/
theorem c6_prosody_null_vs_zero_witness :
    ((extractNBest (simpleScore 50)).prosodyScore = none → (none : Option ℚ) = none) ∧
    ((extractNBest prosodyZero).prosodyScore = some 0 → (some (0 : ℚ)) = some 0) :=
  ⟨(c6_prosody_null_vs_zero (simpleScore 50) 50 0 0 0 none
      "💪 Keep trying! Your pronunciation scored 50.0/100." [] ""
      (by decide) (by decide)).1,
   (c6_prosody_null_vs_zero prosodyZero 0 0 0 0 (some 0)
      "💪 Keep trying! Your pronunciation scored 0.0/100." [] ""
      (by decide) (by decide)).2.2⟩

/-- C7.  An empty or absent NBest array is treated as an empty candidate:
all sub-scores 0, empty recognized text, lowest-tier feedback, no error. -/
theorem c7_empty_nbest_defaults :
    ∀ r : AzureResult, r.success = true →
      ((r.data.getD ⟨none⟩).nbest = none ∨ (r.data.getD ⟨none⟩).nbest = some []) →
      format_response r = some (.okF 0 0 0 0 none
        "💪 Keep trying! Your pronunciation scored 0.0/100." [] "") := by
  intro r hs hn
  rw [format_response_success r hs]
  have he : extractNBest r = emptyNBest := by
    unfold extractNBest getNBest
    rcases hn with h | h <;> rw [h]
  rw [he]
  decide

/-- Witness for C7: a success result with an explicitly empty NBest list. -/
theorem c7_empty_nbest_defaults_witness :
    format_response ⟨true, none, none, some ⟨some []⟩⟩ = some (.okF 0 0 0 0 none
      "💪 Keep trying! Your pronunciation scored 0.0/100." [] "") :=
  c7_empty_nbest_defaults ⟨true, none, none, some ⟨some []⟩⟩ rfl (Or.inr rfl)

/-- A successful raw result with every sub-score, the prosody score, and
one word's accuracy score all equal to 87.96. -/
def allScores8796 : AzureResult :=
  ⟨true, none, none, some ⟨some [⟨some (mkRat 8796 100), some (mkRat 8796 100),
    some (mkRat 8796 100), some (mkRat 8796 100), some (mkRat 8796 100), some "hello",
    some [⟨some "hello", some (mkRat 8796 100), some "None"⟩]⟩]⟩⟩

/-- C8.  Every output score is the one-decimal rounding of the
corresponding raw score, independently of the others, and 87.96 rounds
to 88.0. -/
theorem c8_one_decimal_rounding :
    (∀ (r : AzureResult) (ps a fl c : ℚ) (pr : Option ℚ) (fb : String)
        (wfb : List WordFB) (rt : String),
      r.success = true →
      format_response r = some (FormattedResult.okF ps a fl c pr fb wfb rt) →
      ps = round1 ((extractNBest r).pronScore.getD 0) ∧
      a = round1 ((extractNBest r).accuracyScore.getD 0) ∧
      fl = round1 ((extractNBest r).fluencyScore.getD 0) ∧
      c = round1 ((extractNBest r).completenessScore.getD 0) ∧
      pr = ((extractNBest r).prosodyScore).map round1 ∧
      wfb = ((extractNBest r).words.getD []).map
        (fun w => ⟨w.word, round1 (w.accuracyScore.getD 0), w.errorType.getD "None"⟩)) ∧
    round1 (mkRat 8796 100) = 88 ∧
    format_response allScores8796 = some (.okF 88 88 88 88 (some 88)
      "👍 Good job! Your pronunciation scored 88.0/100."
      [⟨some "hello", (88 : ℚ), "None"⟩] "hello") := by
  refine ⟨?_, by decide, by decide⟩
  intro r ps a fl c pr fb wfb rt hs hf
  rw [format_response_success r hs] at hf
  obtain ⟨fb0, hfb, hEq⟩ := successBody_some _ _ hf
  injection hEq with h1 h2 h3 h4 h5 h6 h7 h8
  exact ⟨h1, h2, h3, h4, h5, h7⟩

/-- Witness for C8: with every raw score 87.96, each output score equals
the independent one-decimal rounding 88. -/
theorem c8_one_decimal_rounding_witness :
    (88 : ℚ) = round1 ((extractNBest allScores8796).pronScore.getD 0) ∧
    (88 : ℚ) = round1 ((extractNBest allScores8796).accuracyScore.getD 0) ∧
    (88 : ℚ) = round1 ((extractNBest allScores8796).fluencyScore.getD 0) ∧
    (88 : ℚ) = round1 ((extractNBest allScores8796).completenessScore.getD 0) ∧
    (some (88 : ℚ)) = ((extractNBest allScores8796).prosodyScore).map round1 ∧
    [(⟨some "hello", (88 : ℚ), "None"⟩ : WordFB)] =
      ((extractNBest allScores8796).words.getD []).map
        (fun w => ⟨w.word, round1 (w.accuracyScore.getD 0), w.errorType.getD "None"⟩) :=
  c8_one_decimal_rounding.1 allScores8796 88 88 88 88 (some 88)
    "👍 Good job! Your pronunciation scored 88.0/100."
    [⟨some "hello", (88 : ℚ), "None"⟩] "hello" (by decide) (by decide)

/-- An effect environment whose download step always fails and whose
remote client would report a failure if it were ever reached. -/
def c3Env : Env := ⟨some "k", none, fun _ => none, fun _ _ _ => ⟨false, none, none, none⟩⟩

/-- A well-formed assess request body. -/
def c3Req : ReqBody := ⟨some "http://x/a.mp3", some "hello world", none, none⟩

/-- C3.  When credential and field validation pass but the audio download
fails, the handler returns a 400 result whose error indicates download
failure, and the remote assessment call is never invoked. -/
theorem c3_download_failure_short_circuit :
    ∀ (env : Env) (data : ReqBody),
      get_azure_key env.azureKeyEnv ≠ "" →
      audioUrl data ≠ "" →
      refText data ≠ "" →
      env.download (audioUrl data) = none →
      assessHandler env (some data) = (.jsonErr 400 "Failed to download audio", false) := by
  intro env data h1 h2 h3 h4
  simp [assessHandler, h1, h2, h3, h4]

/-- Witness for C3: a concrete failing-download environment yields the 400
download error with the remote client not invoked. -/
theorem c3_download_failure_short_circuit_witness :
    assessHandler c3Env (some c3Req) = (.jsonErr 400 "Failed to download audio", false) :=
  c3_download_failure_short_circuit c3Env c3Req (by decide) (by decide) (by decide) rfl

/-- A fetch world in which the download succeeds and the transcoder process
fails with a CalledProcessError. -/
def c5World : FetchWorld := ⟨some [7], true, FfmpegOutcome.fail false, none⟩

/-- An effect environment whose download step succeeds. -/
def c5Env : Env := ⟨some "k", none, fun _ => some [7], fun _ _ _ => ⟨false, none, none, none⟩⟩

/-- A well-formed assess request body for the fallback scenario. -/
def c5Req : ReqBody := ⟨some "http://x/b.mp3", some "good morning", none, none⟩

/-- C5.  If the transcoder process fails, the fetch step returns the
original untranscoded bytes rather than an error, and on any successful
fetch the handler continues to the remote assessment call. -/
theorem c5_transcode_failure_falls_back :
    (∀ (w : FetchWorld) (audio : List ℕ) (c : Bool),
      w.get = some audio → w.tmpWriteOk = true → w.ffmpegRun = .fail c →
      (download_audio w).1 = some audio) ∧
    (∀ (env : Env) (data : ReqBody) (audio : List ℕ),
      get_azure_key env.azureKeyEnv ≠ "" →
      audioUrl data ≠ "" →
      refText data ≠ "" →
      env.download (audioUrl data) = some audio →
      (assessHandler env (some data)).2 = true) := by
  constructor
  · intro w audio c hg htw hf
    simp [download_audio, hg, htw, hf]
  · intro env data audio h1 h2 h3 h4
    cases hfr : format_response (env.assessRemote audio (refText data) (reqLanguage data)) <;>
      simp [assessHandler, h1, h2, h3, h4, hfr]

/-- Witness for C5: concrete transcoder failure returns the downloaded
bytes, and a successful fetch reaches the remote call. -/
theorem c5_transcode_failure_falls_back_witness :
    (download_audio c5World).1 = some [7] ∧ (assessHandler c5Env (some c5Req)).2 = true :=
  ⟨c5_transcode_failure_falls_back.1 c5World [7] false rfl rfl rfl,
   c5_transcode_failure_falls_back.2 c5Env c5Req [7] (by decide) (by decide) (by decide) rfl⟩

/-- Counterexample for C4: three exit paths of download_audio on which a
temporary file created during transcoding still exists at return: an
exception launching the transcoder leaks the mp3; a transcoder process
failure leaves a partially created wav; a failure reading the transcoded
output back leaks both files. -/
theorem c4_temp_cleanup_counterexample :
    (download_audio ⟨some [1], true, FfmpegOutcome.exn, some []⟩).2 = ⟨true, false⟩ ∧
    (download_audio ⟨some [1], true, FfmpegOutcome.fail true, some []⟩).2.wav = true ∧
    (download_audio ⟨some [1], true, FfmpegOutcome.ok, none⟩).2 = ⟨true, true⟩ := by decide

/-- C4 as amended.  Temporary files are guaranteed deleted only on the
clean success path (both files) and, for the mp3 input file, on transcoder
process failure; on any other raised exception (unlaunchable transcoder,
temp-write failure, read-back failure) the files created so far are not
deleted, and a partial wav left by a failed transcoder run is not deleted. -/
theorem c4_temp_cleanup_amended :
    ∀ (w : FetchWorld) (audio : List ℕ),
      w.get = some audio → w.tmpWriteOk = true →
      ((w.ffmpegRun = .ok ∧ w.readWav ≠ none) → (download_audio w).2 = ⟨false, false⟩) ∧
      (∀ c, w.ffmpegRun = .fail c → (download_audio w).2.mp3 = false) := by
  intro w audio hg htw
  constructor
  · rintro ⟨hf, hr⟩
    cases hrw : w.readWav with
    | none => exact absurd hrw hr
    | some wav => simp [download_audio, hg, htw, hf, hrw]
  · intro c hf
    simp [download_audio, hg, htw, hf]

/-- Witness for C4's amended theorem: on a concrete clean success path both
temporary files are deleted. -/
theorem c4_temp_cleanup_amended_witness :
    ((FfmpegOutcome.ok = FfmpegOutcome.ok ∧ (some ([] : List ℕ)) ≠ none) →
      (download_audio ⟨some [1], true, FfmpegOutcome.ok, some []⟩).2 = ⟨false, false⟩) ∧
    (∀ c, FfmpegOutcome.ok = FfmpegOutcome.fail c →
      (download_audio ⟨some [1], true, FfmpegOutcome.ok, some []⟩).2.mp3 = false) :=
  c4_temp_cleanup_amended ⟨some [1], true, FfmpegOutcome.ok, some []⟩ [1] rfl rfl

/-- C10.  download_audio never propagates an exception: each enumerated
failure (download error or non-2xx status, temp-file write failure,
unlaunchable transcoder binary, read-back failure) yields the sentinel
none. -/
theorem c10_fetch_failure_returns_none :
    ∀ w : FetchWorld,
      w.get = none ∨ w.tmpWriteOk = false ∨ w.ffmpegRun = .exn ∨
        (w.ffmpegRun = .ok ∧ w.readWav = none) →
      (download_audio w).1 = none := by
  intro w h
  cases hg : w.get with
  | none => simp [download_audio, hg]
  | some audio =>
    rcases h with h | h | h | ⟨h1, h2⟩
    · rw [hg] at h; cases h
    · simp [download_audio, hg, h]
    · cases htw : w.tmpWriteOk <;> simp [download_audio, hg, h, htw]
    · cases htw : w.tmpWriteOk <;> simp [download_audio, hg, h1, h2, htw]

/-- Witness for C10: a failed download yields none. -/
theorem c10_fetch_failure_returns_none_witness :
    (download_audio ⟨none, true, FfmpegOutcome.ok, none⟩).1 = none :=
  c10_fetch_failure_returns_none ⟨none, true, FfmpegOutcome.ok, none⟩ (Or.inl rfl)

lemma string_pos_iff (s : String) : 0 < s.length ↔ s ≠ "" := by
  constructor
  · intro h he
    subst he
    exact absurd h (by decide)
  · intro h
    cases s with
    | mk l =>
      cases l with
      | nil => exact absurd rfl h
      | cons a t =>
        show 0 < (String.mk (a :: t)).length
        simp [String.length]

/-- Counterexample for C9: two configured keys of different lengths give
health payloads agreeing on all four claimed fields (status, service,
azure_configured, region) yet the payloads differ, because the response
additionally exposes the configured key's length in a key_length field. -/
theorem c9_health_counterexample :
    (home (some "aaaaaa") none).status = (home (some "aaaaaaa") none).status ∧
    (home (some "aaaaaa") none).service = (home (some "aaaaaaa") none).service ∧
    (home (some "aaaaaa") none).azure_configured =
      (home (some "aaaaaaa") none).azure_configured ∧
    (home (some "aaaaaa") none).region = (home (some "aaaaaaa") none).region ∧
    home (some "aaaaaa") none ≠ home (some "aaaaaaa") none ∧
    (home (some "aaaaaa") none).key_length = 6 := by decide

/-- C9 as amended.  The health payload is status "running", the service
name, azure_configured, a key_length field exposing the configured key's
length, and the region; azure_configured is true iff the key is
configured non-empty. -/
theorem c9_health_payload_amended :
    ∀ keyEnv regionEnv : Option String,
      home keyEnv regionEnv = ⟨"running", "Pronunciation Assessment Middleware",
        decide (0 < (get_azure_key keyEnv).length), (get_azure_key keyEnv).length,
        get_azure_region regionEnv⟩ ∧
      ((home keyEnv regionEnv).azure_configured = true ↔ get_azure_key keyEnv ≠ "") := by
  intro keyEnv regionEnv
  constructor
  · rfl
  · show decide (0 < (get_azure_key keyEnv).length) = true ↔ get_azure_key keyEnv ≠ ""
    rw [decide_eq_true_eq]
    exact string_pos_iff (get_azure_key keyEnv)

/-- Witness for C1: a concrete successful result with raw score 95
instantiates the ladder, its feedback starting with the excellent template. -/
theorem c1_feedback_tier_ladder_witness :
    ∃ tail, "🌟 Excellent! Your pronunciation scored 95.0/100." =
      (if (95 : ℚ) ≥ 90 then
        "🌟 Excellent! Your pronunciation scored " ++ showScore1 95 ++ "/100."
       else if (95 : ℚ) ≥ 75 then
        "👍 Good job! Your pronunciation scored " ++ showScore1 95 ++ "/100."
       else if (95 : ℚ) ≥ 60 then
        "📚 Not bad! Your pronunciation scored " ++ showScore1 95 ++ "/100."
       else "💪 Keep trying! Your pronunciation scored " ++ showScore1 95 ++ "/100.") ++ tail :=
  c1_feedback_tier_ladder.1 (simpleScore 95) 95 0 0 0 none
    "🌟 Excellent! Your pronunciation scored 95.0/100." [] "" (by decide) (by decide)
